import Mathlib

/-!
# Verification of the ZMap SDK scan-configuration model

Shallow embedding of `src/zmapsdk/config.py` (`ZMapScanConfig`): field
model, construction-time validation (`_validate`, `_is_valid_mac`),
and the serialization layer (`to_dict` / `to_json` / `from_dict` /
`from_json`).

Embedding conventions:
* Python `int` is `Int`; Python `float` is modelled by `Rat` (a carrier
  with decidable equality; IEEE NaN/Inf corner cases are outside the
  scope of the embedding).
* Strings are processed through their character lists; character
  classes (`str.isdigit`, regex `[0-9A-Fa-f]`) are modelled at ASCII
  scope, matching the ASCII inputs the validator is documented for.
* Every `raise ZMapConfigError(...)` site in `_validate` becomes one
  constructor of `ZMapConfigError`, carrying the values interpolated
  into the Python message.
* `dict`-typed values (the `user_metadata` field) are modelled as flat
  association lists whose keys are Python ints or strings — enough to
  express the JSON key coercion `dumps({1: v}) = "{\x221\x22: v}"`.
* The textual JSON layer (`json.dumps` / `json.loads`) is modelled at
  the JSON-value level: `to_json` produces a string-keyed JSON object,
  `from_json` consumes one; the text round-trip itself is faithful for
  this value model.
-/

/-- Characters accepted by the separator class `[:-]` of the MAC regex. -/
def isSepChar (c : Char) : Bool := c = ':' || c = '-'

/-- Characters accepted by the hex class `[0-9A-Fa-f]` of the MAC regex. -/
def isHexChar (c : Char) : Bool :=
  c.isDigit || ('a' ≤ c && c ≤ 'f') || ('A' ≤ c && c ≤ 'F')

/-- Python `"-" in s` membership test, on the character list. -/
def pyContains (cs : List Char) (c : Char) : Bool := cs.any (fun x => x = c)

/-- Python `s.isdigit()` at ASCII scope: nonempty and all decimal digits. -/
def pyIsDigitChars (cs : List Char) : Bool :=
  !cs.isEmpty && cs.all Char.isDigit

/-- Decimal value of an all-digit character list (the value `int(s)`
returns on a string that passed `isdigit`). -/
def digitsVal (cs : List Char) : Nat :=
  cs.foldl (fun acc c => 10 * acc + c.toNat - '0'.toNat) 0

/-- Python `s.split("-")` for the single-character separator `"-"`. -/
def splitDash : List Char → List (List Char)
  | [] => [[]]
  | c :: rest =>
    if c = '-' then [] :: splitDash rest
    else
      match splitDash rest with
      | g :: gs => (c :: g) :: gs
      | [] => [[c]]

/-- Python `s.strip()` at ASCII scope, as performed by `int(s)`. -/
def pyStripChars (cs : List Char) : List Char :=
  ((cs.dropWhile Char.isWhitespace).reverse.dropWhile Char.isWhitespace).reverse

/-- After the first digit of a Python integer literal body: digits, with
single underscores allowed only between digits. -/
def digitGroupTail : List Char → Bool
  | [] => true
  | '_' :: [] => false
  | '_' :: c :: rest => c.isDigit && digitGroupTail rest
  | c :: rest => c.isDigit && digitGroupTail rest

/-- Body of a Python integer literal: a leading digit then `digitGroupTail`. -/
def digitGroupBody : List Char → Bool
  | [] => false
  | c :: rest => c.isDigit && digitGroupTail rest

/-- Whether `int(s)` succeeds on `s` (ASCII scope): optional surrounding
whitespace, an optional single sign, then digits with optional single
underscores between digits. -/
def pyIntParseableChars (cs : List Char) : Bool :=
  match pyStripChars cs with
  | '+' :: rest => digitGroupBody rest
  | '-' :: rest => digitGroupBody rest
  | rest => digitGroupBody rest

/-- One group `[0-9A-Fa-f]{2}[:-]` of the MAC regex: two hex digits and
a separator. -/
def hexPairSep (a b s : Char) : Bool :=
  isHexChar a && isHexChar b && isSepChar s

/-- One repetition step of `([0-9A-Fa-f]{2}[:-]){n}`: each iteration
consumes exactly two hex digits and one separator. Returns the unread
tail on success. -/
def macRep : Nat → List Char → Option (List Char)
  | 0, cs => some cs
  | n + 1, a :: b :: s :: rest =>
    if hexPairSep a b s then macRep n rest else none
  | _ + 1, _ => none

/-- The Python `$` anchor: end of string, or just before a single trailing
newline. -/
def dollarEnd : List Char → Bool
  | [] => true
  | [c] => c = '\n'
  | _ => false

/-- `re.match` of the pattern `^([0-9A-Fa-f]\x7b2\x7d[:-])\x7b5\x7d([0-9A-Fa-f]\x7b2\x7d)$` on the
character list (the pattern is deterministic: every alternative consumes
a fixed number of characters). -/
def macMatchChars (cs : List Char) : Bool :=
  match macRep 5 cs with
  | some (a :: b :: rest) => isHexChar a && isHexChar b && dollarEnd rest
  | _ => false

/-- `ZMapScanConfig._is_valid_mac`. -/
def _is_valid_mac (mac : String) : Bool := macMatchChars mac.toList

/-- The canonical 6-octet MAC pattern as the specification words it:
exactly six two-hex-digit octets, the first five each followed by a
colon or hyphen — 17 characters, nothing more. -/
def canonicalMacChars : List Char → Bool
  | [a1, b1, s1, a2, b2, s2, a3, b3, s3, a4, b4, s4, a5, b5, s5, a6, b6] =>
    hexPairSep a1 b1 s1 && hexPairSep a2 b2 s2 && hexPairSep a3 b3 s3 &&
    hexPairSep a4 b4 s4 && hexPairSep a5 b5 s5 &&
    isHexChar a6 && isHexChar b6
  | _ => false

/-- The canonical 6-octet MAC pattern on a string. -/
def canonicalMac (s : String) : Bool := canonicalMacChars s.toList

/-- The canonical 6-octet MAC pattern followed by exactly one trailing
newline (the extra strings admitted by the Python `$` anchor). -/
def canonicalMacNlChars : List Char → Bool
  | [a1, b1, s1, a2, b2, s2, a3, b3, s3, a4, b4, s4, a5, b5, s5, a6, b6, nl] =>
    hexPairSep a1 b1 s1 && hexPairSep a2 b2 s2 && hexPairSep a3 b3 s3 &&
    hexPairSep a4 b4 s4 && hexPairSep a5 b5 s5 &&
    isHexChar a6 && isHexChar b6 && nl = '\n'
  | _ => false

/-- Canonical MAC plus one trailing newline, on a string. -/
def canonicalMacNl (s : String) : Bool := canonicalMacNlChars s.toList

/-- A Python value of type `Union[int, str]` (fields `source_port`,
`max_targets`). -/
inductive IntOrStr where
  | i (n : Int)
  | s (t : String)
deriving DecidableEq, Repr

/-- A Python value of type `Union[List[int], str]` (field `cores`). -/
inductive CoresVal where
  | list (xs : List Int)
  | str (t : String)
deriving DecidableEq, Repr

/-- A key of a Python `dict` as storable in `user_metadata`. -/
inductive PyKey where
  | kInt (n : Int)
  | kStr (s : String)
deriving DecidableEq, Repr

/-- A primitive Python value inside a `user_metadata` dict. -/
inductive PyPrim where
  | pInt (n : Int)
  | pStr (s : String)
  | pBool (b : Bool)
  | pRat (q : Rat)
  | pNone
deriving DecidableEq, Repr

/-- A flat Python dict, as storable in `user_metadata`. -/
abbrev PyDict := List (PyKey × PyPrim)

/-- A Python value of type `Union[Dict, str]` (field `user_metadata`). -/
inductive MetaVal where
  | dict (d : PyDict)
  | str (t : String)
deriving DecidableEq, Repr

/-- The `ZMapScanConfig` dataclass: fields in declaration order, with the
dataclass defaults (`None` for optionals, `False` for the three boolean
flags). -/
structure ZMapScanConfig where
  target_port : Option Int := none
  bandwidth : Option String := none
  rate : Option Int := none
  cooldown_time : Option Int := none
  interface : Option String := none
  source_ip : Option String := none
  source_port : Option IntOrStr := none
  gateway_mac : Option String := none
  source_mac : Option String := none
  target_mac : Option String := none
  vpn : Bool := false
  max_targets : Option IntOrStr := none
  max_runtime : Option Int := none
  max_results : Option Int := none
  probes : Option Int := none
  retries : Option Int := none
  dryrun : Bool := false
  seed : Option Int := none
  shards : Option Int := none
  shard : Option Int := none
  sender_threads : Option Int := none
  cores : Option CoresVal := none
  ignore_invalid_hosts : Bool := false
  max_sendto_failures : Option Int := none
  min_hitrate : Option Rat := none
  notes : Option String := none
  user_metadata : Option MetaVal := none
deriving DecidableEq, Repr

/-- `ZMapConfigError`: one constructor per `raise` site of `_validate`,
carrying the values interpolated into the Python error message. -/
inductive ZMapConfigError where
  | invalidTargetPort (p : Int)
  | rateAndBandwidth
  | invalidSourcePortRange (s : String)
  | invalidSourcePortRangeBounds (s : String)
  | invalidSourcePort (p : Int)
  | invalidMaxTargets (s : String)
  | invalidMac (fieldName : String) (mac : String)
deriving DecidableEq, Repr

/-- `_validate` lines 87-88: target port range check. -/
def checkTargetPort (c : ZMapScanConfig) : Except ZMapConfigError Unit :=
  match c.target_port with
  | none => .ok ()
  | some p =>
    if 0 ≤ p ∧ p ≤ 65535 then .ok () else .error (.invalidTargetPort p)

/-- `_validate` lines 90-91: rate/bandwidth mutual exclusion. -/
def checkRateBandwidth (c : ZMapScanConfig) : Except ZMapConfigError Unit :=
  match c.rate, c.bandwidth with
  | some _, some _ => .error .rateAndBandwidth
  | _, _ => .ok ()

/-- `_validate` lines 93-102: source port / source port range check.
A string containing `-` is parsed as a range (exactly two all-digit
parts, bounds ordered and within 65535); a string without `-` is not
checked at all; an int is range-checked. -/
def checkSourcePort (c : ZMapScanConfig) : Except ZMapConfigError Unit :=
  match c.source_port with
  | none => .ok ()
  | some (.s t) =>
    if pyContains t.toList '-' then
      match splitDash t.toList with
      | [p1, p2] =>
        if pyIsDigitChars p1 && pyIsDigitChars p2 then
          if digitsVal p1 ≤ digitsVal p2 ∧ digitsVal p2 ≤ 65535 then .ok ()
          else .error (.invalidSourcePortRangeBounds t)
        else .error (.invalidSourcePortRange t)
      | _ => .error (.invalidSourcePortRange t)
    else .ok ()
  | some (.i p) =>
    if 0 ≤ p ∧ p ≤ 65535 then .ok () else .error (.invalidSourcePort p)

/-- `_validate` lines 104-109: a string-valued `max_targets` must end in
`%` (the prefix is not inspected) or parse with Python `int(...)`. -/
def checkMaxTargets (c : ZMapScanConfig) : Except ZMapConfigError Unit :=
  match c.max_targets with
  | some (.s t) =>
    if t.toList.getLast? = some '%' then .ok ()
    else if pyIntParseableChars t.toList then .ok ()
    else .error (.invalidMaxTargets t)
  | _ => .ok ()

/-- `_validate` lines 112-115, one MAC field. -/
def checkMacField (fieldName : String) (v : Option String) :
    Except ZMapConfigError Unit :=
  match v with
  | none => .ok ()
  | some m =>
    if _is_valid_mac m then .ok () else .error (.invalidMac fieldName m)

/-- Sequencing of validation steps: first failure wins. -/
def vseq (a b : Except ZMapConfigError Unit) : Except ZMapConfigError Unit :=
  match a with
  | .ok _ => b
  | .error e => .error e

/-- `ZMapScanConfig._validate`, checks in source order. -/
def _validate (c : ZMapScanConfig) : Except ZMapConfigError Unit :=
  vseq (checkTargetPort c) <|
  vseq (checkRateBandwidth c) <|
  vseq (checkSourcePort c) <|
  vseq (checkMaxTargets c) <|
  vseq (checkMacField "gateway_mac" c.gateway_mac) <|
  vseq (checkMacField "source_mac" c.source_mac) <|
  checkMacField "target_mac" c.target_mac

/-- `ZMapScanConfig(...)` construction: `__post_init__` runs `_validate`;
on success the instance exists unchanged, on failure no instance exists. -/
def mkZMapScanConfig (c : ZMapScanConfig) :
    Except ZMapConfigError ZMapScanConfig :=
  match _validate c with
  | .ok _ => .ok c
  | .error e => .error e

/-- Whether construction of the given field combination succeeds. -/
def constructs (c : ZMapScanConfig) : Bool :=
  match mkZMapScanConfig c with
  | .ok _ => true
  | .error _ => false

/-- A value as it appears in the dictionary produced by
`dataclasses.asdict` / consumed by `from_dict`, covering the declared
field types of the dataclass. -/
inductive DVal where
  | dInt (n : Int)
  | dStr (s : String)
  | dBool (b : Bool)
  | dRat (q : Rat)
  | dList (xs : List Int)
  | dDict (d : PyDict)
  | dNone
deriving DecidableEq, Repr

/-- How a `Union[int, str]` field value appears in the dictionary. -/
def iosVal : IntOrStr → DVal
  | .i n => .dInt n
  | .s t => .dStr t

/-- How a `Union[List[int], str]` field value appears in the dictionary. -/
def coresVal : CoresVal → DVal
  | .list xs => .dList xs
  | .str t => .dStr t

/-- How a `Union[Dict, str]` field value appears in the dictionary. -/
def metaVal : MetaVal → DVal
  | .dict d => .dDict d
  | .str t => .dStr t

/-- The dictionary entry contributed by one optional field: present with
its value when set, absent (no sentinel) when `None`. -/
def optEntry (k : String) (v : Option DVal) : List (String × DVal) :=
  match v with
  | some d => [(k, d)]
  | none => []

/-- `ZMapScanConfig.to_dict`: `asdict(self)` in field declaration order,
entries whose value is `None` removed. The three boolean flags are never
`None`, so they always appear. -/
def to_dict (c : ZMapScanConfig) : List (String × DVal) :=
  optEntry "target_port" (c.target_port.map .dInt) ++
  optEntry "bandwidth" (c.bandwidth.map .dStr) ++
  optEntry "rate" (c.rate.map .dInt) ++
  optEntry "cooldown_time" (c.cooldown_time.map .dInt) ++
  optEntry "interface" (c.interface.map .dStr) ++
  optEntry "source_ip" (c.source_ip.map .dStr) ++
  optEntry "source_port" (c.source_port.map iosVal) ++
  optEntry "gateway_mac" (c.gateway_mac.map .dStr) ++
  optEntry "source_mac" (c.source_mac.map .dStr) ++
  optEntry "target_mac" (c.target_mac.map .dStr) ++
  [("vpn", DVal.dBool c.vpn)] ++
  optEntry "max_targets" (c.max_targets.map iosVal) ++
  optEntry "max_runtime" (c.max_runtime.map .dInt) ++
  optEntry "max_results" (c.max_results.map .dInt) ++
  optEntry "probes" (c.probes.map .dInt) ++
  optEntry "retries" (c.retries.map .dInt) ++
  [("dryrun", DVal.dBool c.dryrun)] ++
  optEntry "seed" (c.seed.map .dInt) ++
  optEntry "shards" (c.shards.map .dInt) ++
  optEntry "shard" (c.shard.map .dInt) ++
  optEntry "sender_threads" (c.sender_threads.map .dInt) ++
  optEntry "cores" (c.cores.map coresVal) ++
  [("ignore_invalid_hosts", DVal.dBool c.ignore_invalid_hosts)] ++
  optEntry "max_sendto_failures" (c.max_sendto_failures.map .dInt) ++
  optEntry "min_hitrate" (c.min_hitrate.map .dRat) ++
  optEntry "notes" (c.notes.map .dStr) ++
  optEntry "user_metadata" (c.user_metadata.map metaVal)

/-- An error escaping `from_dict` / `from_json`.
`typeError k` models the Python `TypeError: unexpected keyword argument`
raised by `cls(**data)` when `k` is not a dataclass field name — a
generic error, not a `ZMapConfigError`. `illTyped k` marks a value
outside the declared type of the field, which Python would assign unchecked
(validation may then crash or silently accept it); such inputs are
outside the scope of this embedding and excluded by hypothesis where they
matter. `configError e` wraps a validation failure. -/
inductive FromDictError where
  | typeError (k : String)
  | illTyped (k : String)
  | configError (e : ZMapConfigError)
deriving DecidableEq, Repr

/-- Identifier of a dataclass field, the result of resolving a keyword
name. -/
inductive FieldId where
  | target_port | bandwidth | rate | cooldown_time | interface
  | source_ip | source_port | gateway_mac | source_mac | target_mac
  | vpn | max_targets | max_runtime | max_results | probes | retries
  | dryrun | seed | shards | shard | sender_threads | cores
  | ignore_invalid_hosts | max_sendto_failures | min_hitrate | notes
  | user_metadata
deriving DecidableEq, Repr

/-- Resolution of a keyword name against the dataclass parameter list:
`none` means `cls(**data)` raises the generic
`TypeError: unexpected keyword argument`. -/
def fieldId (k : String) : Option FieldId :=
  if k = "target_port" then some .target_port
  else if k = "bandwidth" then some .bandwidth
  else if k = "rate" then some .rate
  else if k = "cooldown_time" then some .cooldown_time
  else if k = "interface" then some .interface
  else if k = "source_ip" then some .source_ip
  else if k = "source_port" then some .source_port
  else if k = "gateway_mac" then some .gateway_mac
  else if k = "source_mac" then some .source_mac
  else if k = "target_mac" then some .target_mac
  else if k = "vpn" then some .vpn
  else if k = "max_targets" then some .max_targets
  else if k = "max_runtime" then some .max_runtime
  else if k = "max_results" then some .max_results
  else if k = "probes" then some .probes
  else if k = "retries" then some .retries
  else if k = "dryrun" then some .dryrun
  else if k = "seed" then some .seed
  else if k = "shards" then some .shards
  else if k = "shard" then some .shard
  else if k = "sender_threads" then some .sender_threads
  else if k = "cores" then some .cores
  else if k = "ignore_invalid_hosts" then some .ignore_invalid_hosts
  else if k = "max_sendto_failures" then some .max_sendto_failures
  else if k = "min_hitrate" then some .min_hitrate
  else if k = "notes" then some .notes
  else if k = "user_metadata" then some .user_metadata
  else none

/-- Assignment of a dictionary value to a resolved field. Values of the
declared Python type of the field update it; `illTyped` marks the
dynamically-typed inputs outside the scope of this embedding. -/
def applyField (f : FieldId) (k : String) (v : DVal) (acc : ZMapScanConfig) :
    Except FromDictError ZMapScanConfig :=
  match f with
  | .target_port =>
    match v with
    | .dInt n => .ok { acc with target_port := some n }
    | .dNone => .ok { acc with target_port := none }
    | _ => .error (.illTyped k)
  | .bandwidth =>
    match v with
    | .dStr s => .ok { acc with bandwidth := some s }
    | .dNone => .ok { acc with bandwidth := none }
    | _ => .error (.illTyped k)
  | .rate =>
    match v with
    | .dInt n => .ok { acc with rate := some n }
    | .dNone => .ok { acc with rate := none }
    | _ => .error (.illTyped k)
  | .cooldown_time =>
    match v with
    | .dInt n => .ok { acc with cooldown_time := some n }
    | .dNone => .ok { acc with cooldown_time := none }
    | _ => .error (.illTyped k)
  | .interface =>
    match v with
    | .dStr s => .ok { acc with interface := some s }
    | .dNone => .ok { acc with interface := none }
    | _ => .error (.illTyped k)
  | .source_ip =>
    match v with
    | .dStr s => .ok { acc with source_ip := some s }
    | .dNone => .ok { acc with source_ip := none }
    | _ => .error (.illTyped k)
  | .source_port =>
    match v with
    | .dInt n => .ok { acc with source_port := some (.i n) }
    | .dStr s => .ok { acc with source_port := some (.s s) }
    | .dNone => .ok { acc with source_port := none }
    | _ => .error (.illTyped k)
  | .gateway_mac =>
    match v with
    | .dStr s => .ok { acc with gateway_mac := some s }
    | .dNone => .ok { acc with gateway_mac := none }
    | _ => .error (.illTyped k)
  | .source_mac =>
    match v with
    | .dStr s => .ok { acc with source_mac := some s }
    | .dNone => .ok { acc with source_mac := none }
    | _ => .error (.illTyped k)
  | .target_mac =>
    match v with
    | .dStr s => .ok { acc with target_mac := some s }
    | .dNone => .ok { acc with target_mac := none }
    | _ => .error (.illTyped k)
  | .vpn =>
    match v with
    | .dBool b => .ok { acc with vpn := b }
    | _ => .error (.illTyped k)
  | .max_targets =>
    match v with
    | .dInt n => .ok { acc with max_targets := some (.i n) }
    | .dStr s => .ok { acc with max_targets := some (.s s) }
    | .dNone => .ok { acc with max_targets := none }
    | _ => .error (.illTyped k)
  | .max_runtime =>
    match v with
    | .dInt n => .ok { acc with max_runtime := some n }
    | .dNone => .ok { acc with max_runtime := none }
    | _ => .error (.illTyped k)
  | .max_results =>
    match v with
    | .dInt n => .ok { acc with max_results := some n }
    | .dNone => .ok { acc with max_results := none }
    | _ => .error (.illTyped k)
  | .probes =>
    match v with
    | .dInt n => .ok { acc with probes := some n }
    | .dNone => .ok { acc with probes := none }
    | _ => .error (.illTyped k)
  | .retries =>
    match v with
    | .dInt n => .ok { acc with retries := some n }
    | .dNone => .ok { acc with retries := none }
    | _ => .error (.illTyped k)
  | .dryrun =>
    match v with
    | .dBool b => .ok { acc with dryrun := b }
    | _ => .error (.illTyped k)
  | .seed =>
    match v with
    | .dInt n => .ok { acc with seed := some n }
    | .dNone => .ok { acc with seed := none }
    | _ => .error (.illTyped k)
  | .shards =>
    match v with
    | .dInt n => .ok { acc with shards := some n }
    | .dNone => .ok { acc with shards := none }
    | _ => .error (.illTyped k)
  | .shard =>
    match v with
    | .dInt n => .ok { acc with shard := some n }
    | .dNone => .ok { acc with shard := none }
    | _ => .error (.illTyped k)
  | .sender_threads =>
    match v with
    | .dInt n => .ok { acc with sender_threads := some n }
    | .dNone => .ok { acc with sender_threads := none }
    | _ => .error (.illTyped k)
  | .cores =>
    match v with
    | .dList xs => .ok { acc with cores := some (.list xs) }
    | .dStr s => .ok { acc with cores := some (.str s) }
    | .dNone => .ok { acc with cores := none }
    | _ => .error (.illTyped k)
  | .ignore_invalid_hosts =>
    match v with
    | .dBool b => .ok { acc with ignore_invalid_hosts := b }
    | _ => .error (.illTyped k)
  | .max_sendto_failures =>
    match v with
    | .dInt n => .ok { acc with max_sendto_failures := some n }
    | .dNone => .ok { acc with max_sendto_failures := none }
    | _ => .error (.illTyped k)
  | .min_hitrate =>
    match v with
    | .dRat q => .ok { acc with min_hitrate := some q }
    | .dNone => .ok { acc with min_hitrate := none }
    | _ => .error (.illTyped k)
  | .notes =>
    match v with
    | .dStr s => .ok { acc with notes := some s }
    | .dNone => .ok { acc with notes := none }
    | _ => .error (.illTyped k)
  | .user_metadata =>
    match v with
    | .dDict d => .ok { acc with user_metadata := some (.dict d) }
    | .dStr s => .ok { acc with user_metadata := some (.str s) }
    | .dNone => .ok { acc with user_metadata := none }
    | _ => .error (.illTyped k)

/-- Keyword-argument binding of one dictionary entry in `cls(**data)`:
a known field name updates that field, an unknown name raises the
generic `TypeError` before any validation runs. -/
def setField (acc : ZMapScanConfig) (kv : String × DVal) :
    Except FromDictError ZMapScanConfig :=
  match fieldId kv.1 with
  | some f => applyField f kv.1 kv.2 acc
  | none => .error (.typeError kv.1)


/-- Binding all dictionary entries over the dataclass defaults. -/
def fromDictFold : List (String × DVal) → ZMapScanConfig →
    Except FromDictError ZMapScanConfig
  | [], acc => .ok acc
  | kv :: rest, acc =>
    match setField acc kv with
    | .ok acc2 => fromDictFold rest acc2
    | .error e => .error e

/-- `ZMapScanConfig.from_dict`: `cls(**data)` — keyword binding over the
defaults, then `__post_init__` validation. -/
def from_dict (data : List (String × DVal)) :
    Except FromDictError ZMapScanConfig :=
  match fromDictFold data {} with
  | .error e => .error e
  | .ok c =>
    match _validate c with
    | .ok _ => .ok c
    | .error e => .error (.configError e)

/-- A JSON value as produced by `json.dumps` on a dictionary value and
recovered by `json.loads` (object keys are strings). -/
inductive JVal where
  | jInt (n : Int)
  | jStr (s : String)
  | jBool (b : Bool)
  | jRat (q : Rat)
  | jList (xs : List Int)
  | jDict (entries : List (String × PyPrim))
  | jNull
deriving DecidableEq, Repr

/-- `json.dumps` key coercion: an `int` dict key becomes its decimal
string; a `str` key is kept. -/
def jsonKey : PyKey → String
  | .kInt n => toString n
  | .kStr s => s

/-- `json.dumps` on one dictionary value. -/
def encodeJ : DVal → JVal
  | .dInt n => .jInt n
  | .dStr s => .jStr s
  | .dBool b => .jBool b
  | .dRat q => .jRat q
  | .dList xs => .jList xs
  | .dDict d => .jDict (d.map (fun kv => (jsonKey kv.1, kv.2)))
  | .dNone => .jNull

/-- `json.loads` on one dictionary value: JSON object keys come back as
Python strings. -/
def decodeJ : JVal → DVal
  | .jInt n => .dInt n
  | .jStr s => .dStr s
  | .jBool b => .dBool b
  | .jRat q => .dRat q
  | .jList xs => .dList xs
  | .jDict d => .dDict (d.map (fun kv => (PyKey.kStr kv.1, kv.2)))
  | .jNull => .dNone

/-- `json.dumps` on one dictionary entry. -/
def jenc (kv : String × DVal) : String × JVal := (kv.1, encodeJ kv.2)

/-- `json.loads` on one dictionary entry. -/
def jdec (kv : String × JVal) : String × DVal := (kv.1, decodeJ kv.2)

/-- `ZMapScanConfig.to_json`: `json.dumps(self.to_dict())`, modelled at
the JSON-value level. -/
def to_json (c : ZMapScanConfig) : List (String × JVal) :=
  (to_dict c).map jenc

/-- `ZMapScanConfig.from_json`: `cls.from_dict(json.loads(json_str))`,
modelled at the JSON-value level. -/
def from_json (j : List (String × JVal)) :
    Except FromDictError ZMapScanConfig :=
  from_dict (j.map jdec)

/-- Whether a `user_metadata` dict key survives the JSON text layer
unchanged. -/
def isStrKey : PyKey → Bool
  | .kStr _ => true
  | .kInt _ => false

/-- Whether all dict keys in the `user_metadata` of a configuration are
strings (the fragment on which the JSON text layer is injective). -/
def configStrKeyed (c : ZMapScanConfig) : Bool :=
  match c.user_metadata with
  | some (.dict d) => d.all (fun kv => isStrKey kv.1)
  | _ => true

/-- The dataclass field names: the keyword arguments `cls(**data)`
accepts. -/
def knownKey (k : String) : Bool :=
  k = "target_port" || k = "bandwidth" || k = "rate" ||
  k = "cooldown_time" || k = "interface" || k = "source_ip" ||
  k = "source_port" || k = "gateway_mac" || k = "source_mac" ||
  k = "target_mac" || k = "vpn" || k = "max_targets" ||
  k = "max_runtime" || k = "max_results" || k = "probes" ||
  k = "retries" || k = "dryrun" || k = "seed" || k = "shards" ||
  k = "shard" || k = "sender_threads" || k = "cores" ||
  k = "ignore_invalid_hosts" || k = "max_sendto_failures" ||
  k = "min_hitrate" || k = "notes" || k = "user_metadata"

/-- Whether an `Except` result is a success. -/
def isOkE (e : Except ε α) : Bool :=
  match e with
  | .ok _ => true
  | .error _ => false

instance [DecidableEq ε] [DecidableEq α] : DecidableEq (Except ε α) :=
  fun a b =>
    match a, b with
    | .ok x, .ok y =>
      if h : x = y then .isTrue (h ▸ rfl)
      else .isFalse (fun he => h (Except.ok.inj he))
    | .error x, .error y =>
      if h : x = y then .isTrue (h ▸ rfl)
      else .isFalse (fun he => h (Except.error.inj he))
    | .ok _, .error _ => .isFalse Except.noConfusion
    | .error _, .ok _ => .isFalse Except.noConfusion

/-- A valid configuration whose `user_metadata` dict has an integer
key. -/
def cfgIntKeyMeta : ZMapScanConfig :=
  { user_metadata := some (.dict [(.kInt 1, .pStr "a")]) }

/-- A valid configuration exercising serialization: a port, a port
range and string-keyed metadata. -/
def cfgStrKeyMeta : ZMapScanConfig :=
  { target_port := some 443, source_port := some (.s "5000-6000"),
    user_metadata := some (.dict [(.kStr "k", .pStr "v")]) }

/-- A dictionary entry with a known field name and a value of the
declared Python type of the field (the fragment on which `cls(**data)`
binds without a generic error). -/
def goodEntry (kv : String × DVal) : Bool :=
  isOkE (setField {} kv)

/-- Keyword binding sets the field when a value is given and keeps the
value of the accumulator otherwise. -/
def optSet (v o : Option α) : Option α :=
  match v with
  | some a => some a
  | none => o

theorem optSet_none (v : Option α) : optSet v none = v := by
  cases v <;> rfl

theorem fd_target_port (v : Option Int) (rest : List (String × DVal))
    (acc : ZMapScanConfig) :
    fromDictFold (optEntry "target_port" (v.map .dInt) ++ rest) acc
      = fromDictFold rest { acc with target_port := optSet v acc.target_port } := by
  cases v
  · rfl
  · simp [optEntry, fromDictFold, setField, fieldId, applyField, optSet]

theorem fd_bandwidth (v : Option String) (rest : List (String × DVal))
    (acc : ZMapScanConfig) :
    fromDictFold (optEntry "bandwidth" (v.map .dStr) ++ rest) acc
      = fromDictFold rest { acc with bandwidth := optSet v acc.bandwidth } := by
  cases v
  · rfl
  · simp [optEntry, fromDictFold, setField, fieldId, applyField, optSet]

theorem fd_rate (v : Option Int) (rest : List (String × DVal))
    (acc : ZMapScanConfig) :
    fromDictFold (optEntry "rate" (v.map .dInt) ++ rest) acc
      = fromDictFold rest { acc with rate := optSet v acc.rate } := by
  cases v
  · rfl
  · simp [optEntry, fromDictFold, setField, fieldId, applyField, optSet]

theorem fd_cooldown_time (v : Option Int) (rest : List (String × DVal))
    (acc : ZMapScanConfig) :
    fromDictFold (optEntry "cooldown_time" (v.map .dInt) ++ rest) acc
      = fromDictFold rest { acc with cooldown_time := optSet v acc.cooldown_time } := by
  cases v
  · rfl
  · simp [optEntry, fromDictFold, setField, fieldId, applyField, optSet]

theorem fd_interface (v : Option String) (rest : List (String × DVal))
    (acc : ZMapScanConfig) :
    fromDictFold (optEntry "interface" (v.map .dStr) ++ rest) acc
      = fromDictFold rest { acc with interface := optSet v acc.interface } := by
  cases v
  · rfl
  · simp [optEntry, fromDictFold, setField, fieldId, applyField, optSet]

theorem fd_source_ip (v : Option String) (rest : List (String × DVal))
    (acc : ZMapScanConfig) :
    fromDictFold (optEntry "source_ip" (v.map .dStr) ++ rest) acc
      = fromDictFold rest { acc with source_ip := optSet v acc.source_ip } := by
  cases v
  · rfl
  · simp [optEntry, fromDictFold, setField, fieldId, applyField, optSet]

theorem fd_source_port (v : Option IntOrStr) (rest : List (String × DVal))
    (acc : ZMapScanConfig) :
    fromDictFold (optEntry "source_port" (v.map iosVal) ++ rest) acc
      = fromDictFold rest { acc with source_port := optSet v acc.source_port } := by
  cases v
  · rfl
  · rename_i x
    cases x <;> simp [optEntry, fromDictFold, setField, fieldId, applyField, optSet, iosVal]

theorem fd_gateway_mac (v : Option String) (rest : List (String × DVal))
    (acc : ZMapScanConfig) :
    fromDictFold (optEntry "gateway_mac" (v.map .dStr) ++ rest) acc
      = fromDictFold rest { acc with gateway_mac := optSet v acc.gateway_mac } := by
  cases v
  · rfl
  · simp [optEntry, fromDictFold, setField, fieldId, applyField, optSet]

theorem fd_source_mac (v : Option String) (rest : List (String × DVal))
    (acc : ZMapScanConfig) :
    fromDictFold (optEntry "source_mac" (v.map .dStr) ++ rest) acc
      = fromDictFold rest { acc with source_mac := optSet v acc.source_mac } := by
  cases v
  · rfl
  · simp [optEntry, fromDictFold, setField, fieldId, applyField, optSet]

theorem fd_target_mac (v : Option String) (rest : List (String × DVal))
    (acc : ZMapScanConfig) :
    fromDictFold (optEntry "target_mac" (v.map .dStr) ++ rest) acc
      = fromDictFold rest { acc with target_mac := optSet v acc.target_mac } := by
  cases v
  · rfl
  · simp [optEntry, fromDictFold, setField, fieldId, applyField, optSet]

theorem fd_vpn (b : Bool) (rest : List (String × DVal)) (acc : ZMapScanConfig) :
    fromDictFold ([("vpn", DVal.dBool b)] ++ rest) acc
      = fromDictFold rest { acc with vpn := b } := by
  simp [fromDictFold, setField, fieldId, applyField]

theorem fd_max_targets (v : Option IntOrStr) (rest : List (String × DVal))
    (acc : ZMapScanConfig) :
    fromDictFold (optEntry "max_targets" (v.map iosVal) ++ rest) acc
      = fromDictFold rest { acc with max_targets := optSet v acc.max_targets } := by
  cases v
  · rfl
  · rename_i x
    cases x <;> simp [optEntry, fromDictFold, setField, fieldId, applyField, optSet, iosVal]

theorem fd_max_runtime (v : Option Int) (rest : List (String × DVal))
    (acc : ZMapScanConfig) :
    fromDictFold (optEntry "max_runtime" (v.map .dInt) ++ rest) acc
      = fromDictFold rest { acc with max_runtime := optSet v acc.max_runtime } := by
  cases v
  · rfl
  · simp [optEntry, fromDictFold, setField, fieldId, applyField, optSet]

theorem fd_max_results (v : Option Int) (rest : List (String × DVal))
    (acc : ZMapScanConfig) :
    fromDictFold (optEntry "max_results" (v.map .dInt) ++ rest) acc
      = fromDictFold rest { acc with max_results := optSet v acc.max_results } := by
  cases v
  · rfl
  · simp [optEntry, fromDictFold, setField, fieldId, applyField, optSet]

theorem fd_probes (v : Option Int) (rest : List (String × DVal))
    (acc : ZMapScanConfig) :
    fromDictFold (optEntry "probes" (v.map .dInt) ++ rest) acc
      = fromDictFold rest { acc with probes := optSet v acc.probes } := by
  cases v
  · rfl
  · simp [optEntry, fromDictFold, setField, fieldId, applyField, optSet]

theorem fd_retries (v : Option Int) (rest : List (String × DVal))
    (acc : ZMapScanConfig) :
    fromDictFold (optEntry "retries" (v.map .dInt) ++ rest) acc
      = fromDictFold rest { acc with retries := optSet v acc.retries } := by
  cases v
  · rfl
  · simp [optEntry, fromDictFold, setField, fieldId, applyField, optSet]

theorem fd_dryrun (b : Bool) (rest : List (String × DVal)) (acc : ZMapScanConfig) :
    fromDictFold ([("dryrun", DVal.dBool b)] ++ rest) acc
      = fromDictFold rest { acc with dryrun := b } := by
  simp [fromDictFold, setField, fieldId, applyField]

theorem fd_seed (v : Option Int) (rest : List (String × DVal))
    (acc : ZMapScanConfig) :
    fromDictFold (optEntry "seed" (v.map .dInt) ++ rest) acc
      = fromDictFold rest { acc with seed := optSet v acc.seed } := by
  cases v
  · rfl
  · simp [optEntry, fromDictFold, setField, fieldId, applyField, optSet]

theorem fd_shards (v : Option Int) (rest : List (String × DVal))
    (acc : ZMapScanConfig) :
    fromDictFold (optEntry "shards" (v.map .dInt) ++ rest) acc
      = fromDictFold rest { acc with shards := optSet v acc.shards } := by
  cases v
  · rfl
  · simp [optEntry, fromDictFold, setField, fieldId, applyField, optSet]

theorem fd_shard (v : Option Int) (rest : List (String × DVal))
    (acc : ZMapScanConfig) :
    fromDictFold (optEntry "shard" (v.map .dInt) ++ rest) acc
      = fromDictFold rest { acc with shard := optSet v acc.shard } := by
  cases v
  · rfl
  · simp [optEntry, fromDictFold, setField, fieldId, applyField, optSet]

theorem fd_sender_threads (v : Option Int) (rest : List (String × DVal))
    (acc : ZMapScanConfig) :
    fromDictFold (optEntry "sender_threads" (v.map .dInt) ++ rest) acc
      = fromDictFold rest { acc with sender_threads := optSet v acc.sender_threads } := by
  cases v
  · rfl
  · simp [optEntry, fromDictFold, setField, fieldId, applyField, optSet]

theorem fd_cores (v : Option CoresVal) (rest : List (String × DVal))
    (acc : ZMapScanConfig) :
    fromDictFold (optEntry "cores" (v.map coresVal) ++ rest) acc
      = fromDictFold rest { acc with cores := optSet v acc.cores } := by
  cases v
  · rfl
  · rename_i x
    cases x <;> simp [optEntry, fromDictFold, setField, fieldId, applyField, optSet, coresVal]

theorem fd_ignore_invalid_hosts (b : Bool) (rest : List (String × DVal))
    (acc : ZMapScanConfig) :
    fromDictFold ([("ignore_invalid_hosts", DVal.dBool b)] ++ rest) acc
      = fromDictFold rest { acc with ignore_invalid_hosts := b } := by
  simp [fromDictFold, setField, fieldId, applyField]

theorem fd_max_sendto_failures (v : Option Int) (rest : List (String × DVal))
    (acc : ZMapScanConfig) :
    fromDictFold (optEntry "max_sendto_failures" (v.map .dInt) ++ rest) acc
      = fromDictFold rest { acc with max_sendto_failures := optSet v acc.max_sendto_failures } := by
  cases v
  · rfl
  · simp [optEntry, fromDictFold, setField, fieldId, applyField, optSet]

theorem fd_min_hitrate (v : Option Rat) (rest : List (String × DVal))
    (acc : ZMapScanConfig) :
    fromDictFold (optEntry "min_hitrate" (v.map .dRat) ++ rest) acc
      = fromDictFold rest { acc with min_hitrate := optSet v acc.min_hitrate } := by
  cases v
  · rfl
  · simp [optEntry, fromDictFold, setField, fieldId, applyField, optSet]

theorem fd_notes (v : Option String) (rest : List (String × DVal))
    (acc : ZMapScanConfig) :
    fromDictFold (optEntry "notes" (v.map .dStr) ++ rest) acc
      = fromDictFold rest { acc with notes := optSet v acc.notes } := by
  cases v
  · rfl
  · simp [optEntry, fromDictFold, setField, fieldId, applyField, optSet]

theorem fd_user_metadata (v : Option MetaVal) (acc : ZMapScanConfig) :
    fromDictFold (optEntry "user_metadata" (v.map metaVal)) acc
      = .ok { acc with user_metadata := optSet v acc.user_metadata } := by
  cases v
  · rfl
  · rename_i x
    cases x <;> simp [optEntry, fromDictFold, setField, fieldId, applyField, optSet, metaVal]

/-- Binding the entries of `to_dict c` over the defaults rebuilds `c`. -/
theorem fromDictFold_to_dict (c : ZMapScanConfig) :
    fromDictFold (to_dict c) {} = .ok c := by
  unfold to_dict
  simp only [List.append_assoc]
  rw [fd_target_port, fd_bandwidth, fd_rate, fd_cooldown_time, fd_interface,
    fd_source_ip, fd_source_port, fd_gateway_mac, fd_source_mac, fd_target_mac,
    fd_vpn, fd_max_targets, fd_max_runtime, fd_max_results, fd_probes,
    fd_retries, fd_dryrun, fd_seed, fd_shards, fd_shard, fd_sender_threads,
    fd_cores, fd_ignore_invalid_hosts, fd_max_sendto_failures, fd_min_hitrate,
    fd_notes, fd_user_metadata]
  simp [optSet_none]

theorem strKeyed_map_id (d : PyDict)
    (h : d.all (fun kv => isStrKey kv.1) = true) :
    (d.map (fun kv => (jsonKey kv.1, kv.2))).map
      (fun kv => (PyKey.kStr kv.1, kv.2)) = d := by
  induction d with
  | nil => rfl
  | cons kv tl ih =>
    simp only [List.all_cons, Bool.and_eq_true] at h
    obtain ⟨hk, htl⟩ := h
    obtain ⟨k, v⟩ := kv
    cases k with
    | kInt n => simp [isStrKey] at hk
    | kStr s =>
      simp only [List.map_cons]
      rw [ih htl]
      rfl

theorem mde_dInt (k : String) (o : Option Int) :
    (optEntry k (o.map DVal.dInt)).map (jdec ∘ jenc)
      = optEntry k (o.map DVal.dInt) := by
  cases o <;> rfl

theorem mde_dStr (k : String) (o : Option String) :
    (optEntry k (o.map DVal.dStr)).map (jdec ∘ jenc)
      = optEntry k (o.map DVal.dStr) := by
  cases o <;> rfl

theorem mde_dRat (k : String) (o : Option Rat) :
    (optEntry k (o.map DVal.dRat)).map (jdec ∘ jenc)
      = optEntry k (o.map DVal.dRat) := by
  cases o <;> rfl

theorem mde_ios (k : String) (o : Option IntOrStr) :
    (optEntry k (o.map iosVal)).map (jdec ∘ jenc)
      = optEntry k (o.map iosVal) := by
  cases o with
  | none => rfl
  | some x => cases x <;> rfl

theorem mde_cores (k : String) (o : Option CoresVal) :
    (optEntry k (o.map coresVal)).map (jdec ∘ jenc)
      = optEntry k (o.map coresVal) := by
  cases o with
  | none => rfl
  | some x => cases x <;> rfl

theorem mde_bool (k : String) (b : Bool) :
    ([(k, DVal.dBool b)]).map (jdec ∘ jenc) = [(k, DVal.dBool b)] := rfl

theorem mde_meta (k : String) (o : Option MetaVal)
    (h : (match o with
          | some (.dict d) => d.all (fun kv => isStrKey kv.1)
          | _ => true) = true) :
    (optEntry k (o.map metaVal)).map (jdec ∘ jenc)
      = optEntry k (o.map metaVal) := by
  cases o with
  | none => rfl
  | some x =>
    cases x with
    | str t => rfl
    | dict d =>
      show [(k, decodeJ (encodeJ (DVal.dDict d)))] = [(k, DVal.dDict d)]
      rw [show decodeJ (encodeJ (DVal.dDict d))
            = DVal.dDict ((d.map (fun kv => (jsonKey kv.1, kv.2))).map
                (fun kv => (PyKey.kStr kv.1, kv.2))) from rfl]
      rw [strKeyed_map_id d h]

/-- Decoding the JSON encoding of `to_dict c` is the identity when the
`user_metadata` dict keys are all strings. -/
theorem map_jdec_jenc_to_dict (c : ZMapScanConfig)
    (h : configStrKeyed c = true) :
    (to_dict c).map (jdec ∘ jenc) = to_dict c := by
  unfold configStrKeyed at h
  unfold to_dict
  simp only [List.map_append]
  rw [mde_dInt, mde_dStr, mde_dInt, mde_dInt, mde_dStr, mde_dStr, mde_ios,
    mde_dStr, mde_dStr, mde_dStr, mde_bool, mde_ios, mde_dInt, mde_dInt,
    mde_dInt, mde_dInt, mde_bool, mde_dInt, mde_dInt, mde_dInt, mde_dInt,
    mde_cores, mde_bool, mde_dInt, mde_dRat, mde_dStr, mde_meta _ _ h]

theorem macRep_zero (t : List Char) : macRep 0 t = some t := rfl

theorem macRep_step (n : Nat) (a b s : Char) (t : List Char) :
    macRep (n + 1) (a :: b :: s :: t)
      = if hexPairSep a b s then macRep n t else none := rfl

/-- The regex `^([0-9A-Fa-f]{2}[:-]){5}([0-9A-Fa-f]{2})$` under Python
`re.match` accepts exactly the canonical 17-character MAC strings and
those same strings with a single trailing newline. -/
theorem macMatchChars_eq (cs : List Char) :
    macMatchChars cs = (canonicalMacChars cs || canonicalMacNlChars cs) := by
  rcases cs with _ | ⟨a1, _ | ⟨b1, _ | ⟨s1, _ | ⟨a2, _ | ⟨b2, _ | ⟨s2,
    _ | ⟨a3, _ | ⟨b3, _ | ⟨s3, _ | ⟨a4, _ | ⟨b4, _ | ⟨s4, _ | ⟨a5,
    _ | ⟨b5, _ | ⟨s5, _ | ⟨a6, _ | ⟨b6, _ | ⟨c18,
    _ | ⟨c19, rest⟩⟩⟩⟩⟩⟩⟩⟩⟩⟩⟩⟩⟩⟩⟩⟩⟩⟩⟩
  all_goals
    simp only [macMatchChars, macRep_step, macRep_zero, macRep,
      canonicalMacChars, canonicalMacNlChars, dollarEnd]
  all_goals
    try rfl
  all_goals
    split_ifs <;> simp_all

theorem splitDash_nodash (d : List Char) (h : '-' ∉ d) :
    splitDash d = [d] := by
  induction d with
  | nil => rfl
  | cons c tl ih =>
    simp only [List.mem_cons, not_or] at h
    obtain ⟨hc, htl⟩ := h
    conv_lhs => unfold splitDash
    rw [if_neg (fun he => hc he.symm), ih htl]

theorem splitDash_mid (d1 d2 : List Char) (h : '-' ∉ d1) :
    splitDash (d1 ++ '-' :: d2) = d1 :: splitDash d2 := by
  induction d1 with
  | nil =>
    show splitDash ('-' :: d2) = [] :: splitDash d2
    conv_lhs => unfold splitDash
    rw [if_pos rfl]
  | cons c tl ih =>
    simp only [List.mem_cons, not_or] at h
    obtain ⟨hc, htl⟩ := h
    show splitDash (c :: (tl ++ '-' :: d2)) = (c :: tl) :: splitDash d2
    conv_lhs => unfold splitDash
    rw [if_neg (fun he => hc he.symm), ih htl]

theorem digits_no_dash (d : List Char) (h : d.all Char.isDigit = true) :
    '-' ∉ d := by
  intro hm
  have := List.all_eq_true.mp h '-' hm
  simp [Char.isDigit] at this

theorem checkTargetPort_ne_rb (c : ZMapScanConfig) :
    checkTargetPort c ≠ .error .rateAndBandwidth := by
  cases h : c.target_port <;> simp [checkTargetPort, h]
  split_ifs <;> simp

theorem checkSourcePort_ne_rb (c : ZMapScanConfig) :
    checkSourcePort c ≠ .error .rateAndBandwidth := by
  cases h : c.source_port with
  | none => simp [checkSourcePort, h]
  | some x =>
    cases x with
    | i p =>
      simp only [checkSourcePort, h]
      split_ifs <;> simp
    | s t =>
      simp only [checkSourcePort, h]
      repeat' split
      all_goals simp

theorem checkMaxTargets_ne_rb (c : ZMapScanConfig) :
    checkMaxTargets c ≠ .error .rateAndBandwidth := by
  cases h : c.max_targets with
  | none => simp [checkMaxTargets, h]
  | some x =>
    cases x with
    | i p => simp [checkMaxTargets, h]
    | s t =>
      simp only [checkMaxTargets, h]
      split_ifs <;> simp

theorem checkMacField_ne_rb (fieldName : String) (v : Option String) :
    checkMacField fieldName v ≠ .error .rateAndBandwidth := by
  cases v <;> simp [checkMacField]
  split_ifs <;> simp

theorem checkRB_err (c : ZMapScanConfig) (r : Int) (b : String)
    (hr : c.rate = some r) (hb : c.bandwidth = some b) :
    checkRateBandwidth c = .error .rateAndBandwidth := by
  simp [checkRateBandwidth, hr, hb]

theorem checkRB_ok (c : ZMapScanConfig)
    (h : c.rate = none ∨ c.bandwidth = none) :
    checkRateBandwidth c = .ok () := by
  rcases h with h | h
  · simp [checkRateBandwidth, h]
  · cases hr : c.rate <;> simp [checkRateBandwidth, hr, h]

theorem applyField_ne_typeError (f : FieldId) (k k2 : String) (v : DVal)
    (acc : ZMapScanConfig) :
    applyField f k v acc ≠ .error (.typeError k2) := by
  cases f <;> cases v <;> simp [applyField]

theorem applyField_ok_indep (f : FieldId) (k : String) (v : DVal)
    (acc : ZMapScanConfig)
    (h : ∃ c2, applyField f k v {} = .ok c2) :
    ∃ acc2, applyField f k v acc = .ok acc2 := by
  cases f <;> cases v <;> simp_all [applyField]

theorem setField_ok_of_good (kv : String × DVal)
    (h : goodEntry kv = true) (acc : ZMapScanConfig) :
    ∃ acc2, setField acc kv = .ok acc2 := by
  unfold goodEntry at h
  unfold setField at h ⊢
  cases hf : fieldId kv.1 with
  | none =>
    rw [hf] at h
    replace h : false = true := h
    exact Bool.noConfusion h
  | some f =>
    rw [hf] at h
    replace h : isOkE (applyField f kv.1 kv.2 {}) = true := h
    show ∃ acc2, applyField f kv.1 kv.2 acc = Except.ok acc2
    refine applyField_ok_indep f kv.1 kv.2 acc ?_
    cases hv : applyField f kv.1 kv.2 {} with
    | ok c2 => exact ⟨c2, rfl⟩
    | error e =>
      rw [hv] at h
      simp [isOkE] at h

theorem fromDictFold_ok_of_good (l : List (String × DVal)) :
    ∀ acc, l.all goodEntry = true → ∃ c2, fromDictFold l acc = .ok c2 := by
  induction l with
  | nil => exact fun acc _ => ⟨acc, rfl⟩
  | cons kv rest ih =>
    intro acc h
    simp only [List.all_cons, Bool.and_eq_true] at h
    obtain ⟨acc2, hs⟩ := setField_ok_of_good kv h.1 acc
    unfold fromDictFold
    rw [hs]
    exact ih acc2 h.2

theorem fieldId_none_unknown (k : String) (h : fieldId k = none) :
    knownKey k = false := by
  by_contra hk
  rw [Bool.not_eq_false] at hk
  unfold knownKey at hk
  simp only [Bool.or_eq_true, decide_eq_true_eq, or_assoc] at hk
  rcases hk with hk|hk|hk|hk|hk|hk|hk|hk|hk|hk|hk|hk|hk|hk|hk|hk|hk|hk|hk|hk|hk|hk|hk|hk|hk|hk|hk <;>
    (subst hk; simp [fieldId] at h)

theorem setField_typeError (acc : ZMapScanConfig) (kv : String × DVal)
    (k : String) (h : setField acc kv = .error (.typeError k)) :
    knownKey k = false := by
  unfold setField at h
  cases hf : fieldId kv.1 with
  | some f =>
    rw [hf] at h
    exact absurd h (applyField_ne_typeError f kv.1 k kv.2 acc)
  | none =>
    rw [hf] at h
    cases h
    exact fieldId_none_unknown kv.1 hf

theorem fromDictFold_typeError (l : List (String × DVal)) :
    ∀ acc k, fromDictFold l acc = .error (.typeError k) →
      knownKey k = false := by
  induction l with
  | nil => intro acc k h; simp [fromDictFold] at h
  | cons kv rest ih =>
    intro acc k h
    unfold fromDictFold at h
    cases hs : setField acc kv with
    | ok acc2 => rw [hs] at h; exact ih acc2 k h
    | error e =>
      rw [hs] at h
      cases h
      exact setField_typeError acc kv k hs

/-- C1 counterexample: a configuration with shard index 5 and shard
count 2 — shard not less than shards — is accepted by construction,
refuting the claim that construction enforces shard < shards. -/
theorem shard_exceeds_count_accepted :
    constructs { shard := some 5, shards := some 2 } = true ∧
    (2 : Int) ≤ 5 := by
  exact ⟨rfl, by norm_num⟩

/-- C1 (amended): construction performs no check relating shard index
and shard count — every integer pair, including shard ≥ shards and
negative values, constructs successfully; the shard < shards invariant
is left to the orchestrator. -/
theorem shard_relation_unchecked :
    ∀ i j : Int, constructs { shard := some i, shards := some j } = true :=
  fun _ _ => rfl

/-- C7: for target_port `p` (all other fields unset), construction
succeeds iff 0 ≤ p ≤ 65535; the boundary values 0 and 65535 are
accepted, and -1 and 65536 are rejected. -/
theorem target_port_range_check :
    (∀ p : Int,
      constructs { target_port := some p } = true ↔ 0 ≤ p ∧ p ≤ 65535) ∧
    constructs { target_port := some 0 } = true ∧
    constructs { target_port := some 65535 } = true ∧
    constructs { target_port := some (-1) } = false ∧
    constructs { target_port := some 65536 } = false := by
  refine ⟨fun p => ?_, by decide, by decide, by decide, by decide⟩
  rcases Decidable.em (0 ≤ p ∧ p ≤ 65535) with hp | hp <;>
    simp [constructs, mkZMapScanConfig, _validate, vseq, checkTargetPort,
      checkRateBandwidth, checkSourcePort, checkMaxTargets, checkMacField, hp]

/-- C10 (implicit): construction performs no range or format check on
rate (bandwidth unset), cooldown_time, max_runtime, max_results,
probes, retries, shards, shard, integer max_targets — any integer,
including negative values, is accepted — and any string is accepted as
bandwidth (rate unset), interface, or source_ip. -/
theorem unvalidated_fields_accept_all :
    (∀ n : Int, constructs { rate := some n } = true) ∧
    (∀ n : Int, constructs { cooldown_time := some n } = true) ∧
    (∀ n : Int, constructs { max_runtime := some n } = true) ∧
    (∀ n : Int, constructs { max_results := some n } = true) ∧
    (∀ n : Int, constructs { probes := some n } = true) ∧
    (∀ n : Int, constructs { retries := some n } = true) ∧
    (∀ n : Int, constructs { shards := some n } = true) ∧
    (∀ n : Int, constructs { shard := some n } = true) ∧
    (∀ n : Int, constructs { max_targets := some (.i n) } = true) ∧
    (∀ s : String, constructs { bandwidth := some s } = true) ∧
    (∀ s : String, constructs { interface := some s } = true) ∧
    (∀ s : String, constructs { source_ip := some s } = true) :=
  ⟨fun _ => rfl, fun _ => rfl, fun _ => rfl, fun _ => rfl, fun _ => rfl,
   fun _ => rfl, fun _ => rfl, fun _ => rfl, fun _ => rfl, fun _ => rfl,
   fun _ => rfl, fun _ => rfl⟩

theorem vseq_ok (u : Unit) (b : Except ZMapConfigError Unit) :
    vseq (.ok u) b = b := rfl

theorem vseq_err (e : ZMapConfigError) (b : Except ZMapConfigError Unit) :
    vseq (.error e) b = .error e := rfl

/-- C3: a configuration with both rate and bandwidth set never
constructs (it fails with a `ZMapConfigError`, the only error type
`_validate` raises), and a configuration with at most one of them set
is never rejected on the mutual-exclusion ground. -/
theorem rate_bandwidth_exclusive :
    (∀ c : ZMapScanConfig, c.rate ≠ none → c.bandwidth ≠ none →
      constructs c = false) ∧
    (∀ c : ZMapScanConfig, c.rate = none ∨ c.bandwidth = none →
      _validate c ≠ .error .rateAndBandwidth) := by
  constructor
  · intro c hr hb
    obtain ⟨r, hr⟩ := Option.ne_none_iff_exists'.mp hr
    obtain ⟨b, hb⟩ := Option.ne_none_iff_exists'.mp hb
    unfold constructs mkZMapScanConfig _validate
    cases h1 : checkTargetPort c with
    | error e => simp [vseq, h1]
    | ok u => simp [vseq, h1, checkRB_err c r b hr hb]
  · intro c h
    unfold _validate
    rw [checkRB_ok c h]
    cases h1 : checkTargetPort c with
    | error e =>
      rw [vseq_err]
      exact fun he => checkTargetPort_ne_rb c (h1.trans he)
    | ok u =>
      rw [vseq_ok, vseq_ok]
      cases h3 : checkSourcePort c with
      | error e =>
        rw [vseq_err]
        exact fun he => checkSourcePort_ne_rb c (h3.trans he)
      | ok u2 =>
        rw [vseq_ok]
        cases h4 : checkMaxTargets c with
        | error e =>
          rw [vseq_err]
          exact fun he => checkMaxTargets_ne_rb c (h4.trans he)
        | ok u3 =>
          rw [vseq_ok]
          cases h5 : checkMacField "gateway_mac" c.gateway_mac with
          | error e =>
            rw [vseq_err]
            exact fun he => checkMacField_ne_rb "gateway_mac" c.gateway_mac (h5.trans he)
          | ok u4 =>
            rw [vseq_ok]
            cases h6 : checkMacField "source_mac" c.source_mac with
            | error e =>
              rw [vseq_err]
              exact fun he => checkMacField_ne_rb "source_mac" c.source_mac (h6.trans he)
            | ok u5 =>
              rw [vseq_ok]
              exact fun he => checkMacField_ne_rb "target_mac" c.target_mac he

/-- C3 witness: both set at rate 100, bandwidth "10M" fails; a
configuration with only target_port set (even an invalid one) is never
rejected on the mutual-exclusion ground. -/
theorem rate_bandwidth_exclusive_witness :
    constructs { rate := some 100, bandwidth := some "10M" } = false ∧
    _validate { target_port := some 70000 } ≠ .error .rateAndBandwidth :=
  ⟨rate_bandwidth_exclusive.1 { rate := some 100, bandwidth := some "10M" }
      (by simp) (by simp),
   rate_bandwidth_exclusive.2 { target_port := some 70000 } (Or.inl rfl)⟩

theorem constructs_gateway_mac (s : String) :
    constructs { gateway_mac := some s } = _is_valid_mac s := by
  cases hm : _is_valid_mac s <;>
    simp [constructs, mkZMapScanConfig, _validate, vseq, checkTargetPort,
      checkRateBandwidth, checkSourcePort, checkMaxTargets, checkMacField, hm]

theorem constructs_source_mac (s : String) :
    constructs { source_mac := some s } = _is_valid_mac s := by
  cases hm : _is_valid_mac s <;>
    simp [constructs, mkZMapScanConfig, _validate, vseq, checkTargetPort,
      checkRateBandwidth, checkSourcePort, checkMaxTargets, checkMacField, hm]

theorem constructs_target_mac (s : String) :
    constructs { target_mac := some s } = _is_valid_mac s := by
  cases hm : _is_valid_mac s <;>
    simp [constructs, mkZMapScanConfig, _validate, vseq, checkTargetPort,
      checkRateBandwidth, checkSourcePort, checkMaxTargets, checkMacField, hm]

/-- C4 counterexample: the string "AA:BB:CC:DD:EE:FF" followed by a
newline is not the canonical 6-octet MAC pattern, yet construction
accepts it as gateway_mac (Python `$` matches before a trailing
newline), refuting the claimed iff. -/
theorem mac_trailing_newline_accepted :
    constructs { gateway_mac := some "AA:BB:CC:DD:EE:FF\n" } = true ∧
    canonicalMac "AA:BB:CC:DD:EE:FF\n" = false := by
  exact ⟨by decide, by decide⟩

/-- C4 (amended): for each of gateway_mac, source_mac and target_mac,
a string is accepted iff it matches the canonical 6-octet MAC pattern
or that pattern followed by exactly one trailing newline; in
particular "AA:BB:CC:DD:EE:FF" is accepted and "AA:BB:CC" rejected. -/
theorem mac_validation_characterization :
    (∀ s : String, constructs { gateway_mac := some s }
        = (canonicalMac s || canonicalMacNl s)) ∧
    (∀ s : String, constructs { source_mac := some s }
        = (canonicalMac s || canonicalMacNl s)) ∧
    (∀ s : String, constructs { target_mac := some s }
        = (canonicalMac s || canonicalMacNl s)) ∧
    constructs { gateway_mac := some "AA:BB:CC:DD:EE:FF" } = true ∧
    constructs { gateway_mac := some "AA:BB:CC" } = false := by
  refine ⟨fun s => ?_, fun s => ?_, fun s => ?_, by decide, by decide⟩
  · rw [constructs_gateway_mac s]
    exact macMatchChars_eq s.toList
  · rw [constructs_source_mac s]
    exact macMatchChars_eq s.toList
  · rw [constructs_target_mac s]
    exact macMatchChars_eq s.toList

/-- C5 counterexample: the string "abc" — not an integer, not numeric,
and not of the claimed range form (it contains no hyphen) — is
nevertheless accepted as source_port: strings without a hyphen are not
validated at all, refuting the claimed iff. -/
theorem source_port_plain_string_accepted :
    constructs { source_port := some (.s "abc") } = true ∧
    "abc".toList.all Char.isDigit = false ∧
    pyContains "abc".toList '-' = false := by
  exact ⟨rfl, by decide, by decide⟩

/-- C5 (amended): an integer source_port is accepted iff it lies in
[0, 65535]; a string source_port containing no hyphen is accepted
without any validation; a string of the form digits-hyphen-digits is
accepted iff start ≤ end ≤ 65535; "5000-6000" is accepted while
"6000-5000" and "abc-100" are rejected. -/
theorem source_port_characterization :
    (∀ n : Int,
      constructs { source_port := some (.i n) } = true ↔ 0 ≤ n ∧ n ≤ 65535) ∧
    (∀ s : String, pyContains s.toList '-' = false →
      constructs { source_port := some (.s s) } = true) ∧
    (∀ d1 d2 : List Char,
      pyIsDigitChars d1 = true → pyIsDigitChars d2 = true →
      (constructs { source_port := some (.s ⟨d1 ++ '-' :: d2⟩) } = true ↔
        digitsVal d1 ≤ digitsVal d2 ∧ digitsVal d2 ≤ 65535)) ∧
    constructs { source_port := some (.s "5000-6000") } = true ∧
    constructs { source_port := some (.s "6000-5000") } = false ∧
    constructs { source_port := some (.s "abc-100") } = false := by
  refine ⟨fun n => ?_, fun s hs => ?_, fun d1 d2 h1 h2 => ?_,
    by decide, by decide, by decide⟩
  · rcases Decidable.em (0 ≤ n ∧ n ≤ 65535) with hp | hp <;>
      simp [constructs, mkZMapScanConfig, _validate, vseq, checkTargetPort,
        checkRateBandwidth, checkSourcePort, checkMaxTargets, checkMacField, hp]
  · simp only [String.toList] at hs
    simp [constructs, mkZMapScanConfig, _validate, vseq, checkTargetPort,
      checkRateBandwidth, checkSourcePort, checkMaxTargets, checkMacField, hs]
  · have h1x := h1
    have h2x := h2
    simp only [pyIsDigitChars, Bool.and_eq_true] at h1x h2x
    have hn1 := digits_no_dash d1 h1x.2
    have hn2 := digits_no_dash d2 h2x.2
    have hsplit : splitDash (d1 ++ '-' :: d2) = [d1, d2] := by
      rw [splitDash_mid d1 d2 hn1, splitDash_nodash d2 hn2]
    have hcont : pyContains (d1 ++ '-' :: d2) '-' = true := by
      simp [pyContains]
    rcases Decidable.em
        (digitsVal d1 ≤ digitsVal d2 ∧ digitsVal d2 ≤ 65535) with hb | hb <;>
      simp [constructs, mkZMapScanConfig, _validate, vseq, checkTargetPort,
        checkRateBandwidth, checkSourcePort, checkMaxTargets, checkMacField,
        String.toList, hcont, hsplit, h1, h2, hb]

/-- C5 witness: the digit strings 5000 and 6000 satisfy the range-form
hypotheses, and the characterization holds for them. -/
theorem source_port_characterization_witness :
    (pyIsDigitChars "5000".toList = true ∧
      pyIsDigitChars "6000".toList = true) ∧
    (constructs { source_port := some (.s ⟨"5000".toList ++ '-' :: "6000".toList⟩) } = true ↔
      digitsVal "5000".toList ≤ digitsVal "6000".toList ∧
        digitsVal "6000".toList ≤ 65535) :=
  ⟨⟨by decide, by decide⟩,
   source_port_characterization.2.2.1 "5000".toList "6000".toList
     (by decide) (by decide)⟩

/-- C6 counterexample: the string "abc%" has no numeric prefix and is
not a bare integer, yet construction accepts it as max_targets — the
code checks only the `%` suffix, refuting the claimed iff. -/
theorem max_targets_percent_prefix_unchecked :
    constructs { max_targets := some (.s "abc%") } = true ∧
    pyIntParseableChars "abc%".toList = false ∧
    "abc%".toList.dropLast.all Char.isDigit = false := by
  exact ⟨rfl, by decide, by decide⟩

/-- C6 (amended): a string max_targets is accepted iff it ends in `%`
(with any prefix, numeric or not) or parses as a Python integer; any
other string fails (with a `ZMapConfigError`, the only error type
`_validate` raises). -/
theorem max_targets_characterization :
    (∀ s : String, constructs { max_targets := some (.s s) } = true ↔
      s.toList.getLast? = some '%' ∨ pyIntParseableChars s.toList = true) ∧
    constructs { max_targets := some (.s "10%") } = true ∧
    constructs { max_targets := some (.s "250000") } = true ∧
    constructs { max_targets := some (.s "abc") } = false := by
  refine ⟨fun s => ?_, by decide, by decide, by decide⟩
  rcases Decidable.em (s.toList.getLast? = some '%') with hp | hp
  all_goals simp only [String.toList] at hp
  · simp [constructs, mkZMapScanConfig, _validate, vseq, checkTargetPort,
      checkRateBandwidth, checkSourcePort, checkMaxTargets, checkMacField,
      String.toList, hp]
  · cases hi : pyIntParseableChars s.data <;>
      simp [constructs, mkZMapScanConfig, _validate, vseq, checkTargetPort,
        checkRateBandwidth, checkSourcePort, checkMaxTargets, checkMacField,
        String.toList, hp, hi]

/-- C2 counterexample: a valid configuration whose user_metadata dict
has the integer key 1 does not survive the JSON round-trip — `dumps`
coerces the key to the string "1" — refuting the claimed
`from_json(to_json(c))` = c law for all valid configurations. -/
theorem from_json_intkey_not_roundtrip :
    _validate cfgIntKeyMeta = .ok () ∧
    from_json (to_json cfgIntKeyMeta) ≠ .ok cfgIntKeyMeta := by
  exact ⟨rfl, by decide⟩

/-- C2 (amended): for every configuration accepted by validation,
`from_dict (to_dict c)` = c; the JSON round-trip
`from_json (to_json c)` = c additionally requires every user_metadata
dict key to be a string (JSON coerces non-string keys). -/
theorem serialization_roundtrip (c : ZMapScanConfig)
    (h : _validate c = .ok ()) :
    from_dict (to_dict c) = .ok c ∧
    (configStrKeyed c = true → from_json (to_json c) = .ok c) := by
  have hfd : from_dict (to_dict c) = .ok c := by
    unfold from_dict
    simp only [fromDictFold_to_dict c, h]
  refine ⟨hfd, fun hk => ?_⟩
  unfold from_json to_json
  rw [List.map_map, map_jdec_jenc_to_dict c hk]
  exact hfd

/-- C2 witness: a concrete valid configuration with string-keyed
metadata round-trips through both `to_dict`/`from_dict` and
`to_json`/`from_json`. -/
theorem serialization_roundtrip_witness :
    from_dict (to_dict cfgStrKeyMeta) = .ok cfgStrKeyMeta ∧
    from_json (to_json cfgStrKeyMeta) = .ok cfgStrKeyMeta :=
  ⟨(serialization_roundtrip cfgStrKeyMeta (by decide)).1,
   (serialization_roundtrip cfgStrKeyMeta (by decide)).2 (by decide)⟩

/-- C8 counterexample: `from_dict` on a dictionary with the unknown
field "bogus" fails with the generic Python TypeError from keyword
binding, not a `ZMapConfigError` — even when a valid known field is
also present — refuting the claim that every deserialization failure
is a `ConfigurationError`. -/
theorem from_dict_unknown_key_typeerror :
    from_dict [("bogus", DVal.dInt 1)] = .error (.typeError "bogus") ∧
    from_dict [("target_port", DVal.dInt 80), ("bogus", DVal.dInt 1)]
      = .error (.typeError "bogus") := by
  exact ⟨by decide, by decide⟩

/-- C8 (amended): on dictionaries whose keys are all known field names
with declared-type values, `from_dict` either succeeds or fails with a
wrapped `ZMapConfigError` carrying the offending field and value (the
same taxonomy as direct construction); the generic TypeError arises
exactly for unknown field names. -/
theorem from_dict_error_taxonomy :
    (∀ l : List (String × DVal), l.all goodEntry = true →
      isOkE (from_dict l) = true ∨
        ∃ ce, from_dict l = .error (.configError ce)) ∧
    (∀ (l : List (String × DVal)) (k : String),
      from_dict l = .error (.typeError k) → knownKey k = false) := by
  constructor
  · intro l hl
    obtain ⟨c2, hc2⟩ := fromDictFold_ok_of_good l {} hl
    unfold from_dict
    simp only [hc2]
    cases hv : _validate c2 with
    | ok u => simp [isOkE]
    | error e => exact Or.inr ⟨e, rfl⟩
  · intro l k h
    unfold from_dict at h
    cases hf : fromDictFold l {} with
    | error e =>
      rw [hf] at h
      cases h
      exact fromDictFold_typeError l {} k hf
    | ok c2 =>
      simp only [hf] at h
      cases hv : _validate c2 with
      | ok u => simp [hv] at h
      | error e => simp [hv] at h

/-- C8 witness: a dictionary with the known field target_port and an
out-of-range value is all good entries, and `from_dict` on it fails
with the wrapped configuration error, never a generic one. -/
theorem from_dict_error_taxonomy_witness :
    [(("target_port" : String), DVal.dInt 70000)].all goodEntry = true ∧
    (isOkE (from_dict [("target_port", DVal.dInt 70000)]) = true ∨
      ∃ ce, from_dict [("target_port", DVal.dInt 70000)]
        = .error (.configError ce)) :=
  ⟨by decide, from_dict_error_taxonomy.1 _ (by decide)⟩

theorem mem_optEntry (p : String × DVal) (k : String) (o : Option DVal) :
    p ∈ optEntry k o ↔ ∃ d, o = some d ∧ p = (k, d) := by
  cases o <;> simp [optEntry]

/-- C9 counterexample: a configuration with only target_port set
serializes to a four-entry dictionary — the boolean flags vpn,
dryrun and ignore_invalid_hosts, which were left unset, still appear
(their False default is not None) — refuting the claim that the
mapping has target_port as its only entry. -/
theorem to_dict_includes_bool_flags :
    to_dict { target_port := some 80 }
      = [("target_port", DVal.dInt 80), ("vpn", DVal.dBool false),
         ("dryrun", DVal.dBool false),
         ("ignore_invalid_hosts", DVal.dBool false)] := rfl

theorem to_json_keys (c : ZMapScanConfig) :
    (to_json c).map Prod.fst = (to_dict c).map Prod.fst := by
  unfold to_json
  rw [List.map_map]
  rfl

set_option maxHeartbeats 3200000 in
/-- C9 (amended): `to_dict` contains a key for an optional field iff
that field is set (absent entry, not a sentinel, when unset), the
three boolean flag fields always contribute their key, and `to_json`
has exactly the same keys. -/
theorem to_dict_omits_none_fields (c : ZMapScanConfig) :
    ((∃ v, ("target_port", v) ∈ to_dict c) ↔ c.target_port ≠ none) ∧
    ((∃ v, ("bandwidth", v) ∈ to_dict c) ↔ c.bandwidth ≠ none) ∧
    ((∃ v, ("rate", v) ∈ to_dict c) ↔ c.rate ≠ none) ∧
    ((∃ v, ("cooldown_time", v) ∈ to_dict c) ↔ c.cooldown_time ≠ none) ∧
    ((∃ v, ("interface", v) ∈ to_dict c) ↔ c.interface ≠ none) ∧
    ((∃ v, ("source_ip", v) ∈ to_dict c) ↔ c.source_ip ≠ none) ∧
    ((∃ v, ("source_port", v) ∈ to_dict c) ↔ c.source_port ≠ none) ∧
    ((∃ v, ("gateway_mac", v) ∈ to_dict c) ↔ c.gateway_mac ≠ none) ∧
    ((∃ v, ("source_mac", v) ∈ to_dict c) ↔ c.source_mac ≠ none) ∧
    ((∃ v, ("target_mac", v) ∈ to_dict c) ↔ c.target_mac ≠ none) ∧
    ((∃ v, ("max_targets", v) ∈ to_dict c) ↔ c.max_targets ≠ none) ∧
    ((∃ v, ("max_runtime", v) ∈ to_dict c) ↔ c.max_runtime ≠ none) ∧
    ((∃ v, ("max_results", v) ∈ to_dict c) ↔ c.max_results ≠ none) ∧
    ((∃ v, ("probes", v) ∈ to_dict c) ↔ c.probes ≠ none) ∧
    ((∃ v, ("retries", v) ∈ to_dict c) ↔ c.retries ≠ none) ∧
    ((∃ v, ("seed", v) ∈ to_dict c) ↔ c.seed ≠ none) ∧
    ((∃ v, ("shards", v) ∈ to_dict c) ↔ c.shards ≠ none) ∧
    ((∃ v, ("shard", v) ∈ to_dict c) ↔ c.shard ≠ none) ∧
    ((∃ v, ("sender_threads", v) ∈ to_dict c) ↔ c.sender_threads ≠ none) ∧
    ((∃ v, ("cores", v) ∈ to_dict c) ↔ c.cores ≠ none) ∧
    ((∃ v, ("max_sendto_failures", v) ∈ to_dict c) ↔
      c.max_sendto_failures ≠ none) ∧
    ((∃ v, ("min_hitrate", v) ∈ to_dict c) ↔ c.min_hitrate ≠ none) ∧
    ((∃ v, ("notes", v) ∈ to_dict c) ↔ c.notes ≠ none) ∧
    ((∃ v, ("user_metadata", v) ∈ to_dict c) ↔ c.user_metadata ≠ none) ∧
    ("vpn", DVal.dBool c.vpn) ∈ to_dict c ∧
    ("dryrun", DVal.dBool c.dryrun) ∈ to_dict c ∧
    ("ignore_invalid_hosts", DVal.dBool c.ignore_invalid_hosts) ∈ to_dict c ∧
    (to_json c).map Prod.fst = (to_dict c).map Prod.fst := by
  refine ⟨?_, ?_, ?_, ?_, ?_, ?_, ?_, ?_, ?_, ?_, ?_, ?_, ?_, ?_, ?_, ?_,
    ?_, ?_, ?_, ?_, ?_, ?_, ?_, ?_, ?_, ?_, ?_, ?_⟩
  all_goals
    try exact to_json_keys c
  all_goals
    try (simp [to_dict, mem_optEntry, List.mem_append, List.mem_singleton,
      Option.map_eq_some', Option.ne_none_iff_exists'])
  all_goals
    try exact ⟨fun h => h.elim (fun v hv => hv.elim (fun a ha => ⟨a, ha.1⟩)),
      fun h => h.elim (fun a ha => ⟨_, a, ha, rfl⟩)⟩

